import Mathlib

/-!
Verification of the client-side TLS handshake engine (src/src/client.rs).

The development shallowly embeds the Rust source into Lean: each Rust
function of `client.rs` becomes a Lean definition of the same name;
`&mut self` methods become functions returning the updated value.
Collaborator modules of the repository that are not present under src/
(msgs, client_hs, hash_hs, suites, session, rand, verify, handshake) are
modelled from the specification; each such definition carries a doc
comment saying so.
-/

/-- Modelled from the spec: wire identifier of a cipher suite
(msgs::enums::CipherSuite is outside src/; it is a C-like enum of
u16 identifiers, modelled here by its numeric identifier). -/
structure CipherSuite where
  id : Nat
deriving DecidableEq

/-- Modelled from the spec: the no-renegotiation sentinel suite
identifier (value 0x00FF in TLS). -/
def CipherSuite.TLS_EMPTY_RENEGOTIATION_INFO_SCSV : CipherSuite := ⟨0xFF⟩

/-- Modelled from the spec: a static cipher-suite descriptor
(suites::SupportedCipherSuite is outside src/). The spec describes it as a
suite identifier plus key-exchange / bulk-cipher / hash algorithm tags;
the algorithm tags are carried as plain numbers since only the identifier
is consulted by the code under src/. -/
structure SupportedCipherSuite where
  suite : CipherSuite
  kx_algorithm : Nat
  bulk_algorithm : Nat
  hash_algorithm : Nat
deriving DecidableEq

/-- Modelled from the spec: the default cipher-suite preference list
(suites::DEFAULT_CIPHERSUITES is outside src/); two representative
suites in preference order. -/
def DEFAULT_CIPHERSUITES : List SupportedCipherSuite :=
  [⟨⟨0xC02B⟩, 1, 1, 1⟩, ⟨⟨0x2F⟩, 0, 0, 0⟩]

/-- Modelled from the spec: trust store for certificate validation
(verify::RootCertStore is outside src/); a collection of root
certificates, each a byte string. -/
structure RootCertStore where
  roots : List (List Nat)
deriving DecidableEq

/-- Modelled from the spec: an empty trust store. -/
def RootCertStore.empty : RootCertStore := ⟨[]⟩

structure ClientConfig where
  ciphersuites : List SupportedCipherSuite
  root_store : RootCertStore
deriving DecidableEq

def ClientConfig.default : ClientConfig :=
  { ciphersuites := DEFAULT_CIPHERSUITES, root_store := RootCertStore.empty }

/-- Modelled from the spec: session::SessionSecrets is outside src/; it
holds master/derived key material, consumed but not designed here. -/
structure SessionSecrets where
  master_secret : List Nat
deriving DecidableEq

/-- Modelled from the spec: fresh client-side secrets. -/
def SessionSecrets.for_client : SessionSecrets := ⟨[]⟩

/-- Modelled from the spec: msgs::handshake::DigitallySignedStruct is
outside src/; a signature over the server key-exchange parameters. -/
structure DigitallySignedStruct where
  alg : Nat
  sig : List Nat
deriving DecidableEq

/-- Modelled from the spec: msgs::base::Payload is outside src/; an
opaque byte payload. -/
structure Payload where
  body : List Nat
deriving DecidableEq

/-- Modelled from the spec: msgs::handshake::ClientExtension is outside
src/; the extensions the client may attach to its hello (server-name
indication, signature-algorithm preferences). -/
inductive ClientExtension where
  | serverName (name : String)
  | signatureAlgorithms (algs : List Nat)
deriving DecidableEq

/-- Modelled from the spec: TLS record content types (msgs layer is
outside src/). -/
inductive ContentType where
  | changeCipherSpec
  | alert
  | handshake
  | applicationData
deriving DecidableEq

/-- Modelled from the spec: handshake message types relevant to the
client state machine (msgs layer is outside src/). -/
inductive HandshakeType where
  | clientHello
  | serverHello
  | certificate
  | serverKeyExchange
  | serverHelloDone
  | finished
deriving DecidableEq

/-- Modelled from the spec: decoded handshake message bodies (msgs layer
is outside src/). A certificate chain is a list of certificates, each a
byte string. -/
inductive HandshakePayload where
  | clientHello (random : List Nat) (suites : List CipherSuite)
      (extensions : List ClientExtension)
  | serverHello (random : List Nat) (suite : CipherSuite)
  | certificate (chain : List (List Nat))
  | serverKeyExchange (params : List Nat)
  | serverHelloDone
  | finished (verify : List Nat)
deriving DecidableEq

/-- Modelled from the spec: a message payload is either still raw wire
bytes (not yet decoded, or decode failed and left it raw) or a decoded
structure (msgs layer is outside src/). -/
inductive MessagePayload where
  | raw (bytes : List Nat)
  | handshake (p : HandshakePayload)
  | changeCipherSpec
deriving DecidableEq

/-- Modelled from the spec: a type-tagged protocol message as produced
by the deframer (msgs::message::Message is outside src/). -/
structure Message where
  typ : ContentType
  payload : MessagePayload
deriving DecidableEq

/-- Modelled from the spec: the handshake type of a decoded handshake
payload. -/
def HandshakePayload.typ : HandshakePayload → HandshakeType
  | .clientHello _ _ _ => .clientHello
  | .serverHello _ _ => .serverHello
  | .certificate _ => .certificate
  | .serverKeyExchange _ => .serverKeyExchange
  | .serverHelloDone => .serverHelloDone
  | .finished _ => .finished

/-- Modelled from the spec: wire encoding of a decoded handshake body
(msgs layer is outside src/). A one-byte tag followed by the body. -/
def HandshakePayload.encode : HandshakePayload → List Nat
  | .clientHello r suites exts =>
      1 :: (r ++ suites.map CipherSuite.id ++ [exts.length])
  | .serverHello r suite => 2 :: (r ++ [suite.id])
  | .certificate chain => 11 :: chain.flatten
  | .serverKeyExchange params => 12 :: params
  | .serverHelloDone => [14]
  | .finished v => 20 :: v

/-- Modelled from the spec: parse raw bytes into a handshake body; the
fallible half of the message layer's decode contract. Only the inbound
server messages are parseable; anything else fails. -/
def parseHandshake : List Nat → Option HandshakePayload
  | 2 :: rest =>
      if rest.length = 33 then
        some (.serverHello (rest.take 32) ⟨rest.getD 32 0⟩)
      else none
  | 11 :: rest => some (.certificate [rest])
  | 12 :: rest => some (.serverKeyExchange rest)
  | [14] => some .serverHelloDone
  | 20 :: rest => some (.finished rest)
  | _ => none

/-- Modelled from the spec: Message::decode_payload (msgs layer is
outside src/) — fallible; converts raw bytes to a structured
representation, leaving the payload raw when parsing fails. -/
def Message.decode_payload (m : Message) : Message :=
  match m.typ, m.payload with
  | .handshake, .raw bs =>
      match parseHandshake bs with
      | some p => { m with payload := .handshake p }
      | none => m
  | .changeCipherSpec, .raw bs =>
      if bs = [1] then { m with payload := .changeCipherSpec } else m
  | _, _ => m

/-- Modelled from the spec: Message::encode (msgs layer is outside src/)
— total; serializes back to wire bytes: a content-type byte then the
body. -/
def Message.encode (m : Message) : List Nat :=
  let body :=
    match m.payload with
    | .raw bs => bs
    | .handshake p => p.encode
    | .changeCipherSpec => [1]
  (match m.typ with
   | .changeCipherSpec => 20
   | .alert => 21
   | .handshake => 22
   | .applicationData => 23) :: body

/-- Modelled from the spec: hash_hs::HandshakeHash is outside src/; the
cumulative transcript hash accumulator. The digest primitive is an
external collaborator, so the accumulator is modelled by the exact byte
transcript it has absorbed: a pure, order-sensitive function of the
wire encodings fed to it. -/
structure HandshakeHash where
  buffer : List Nat
deriving DecidableEq

/-- Modelled from the spec: a fresh accumulator. -/
def HandshakeHash.new : HandshakeHash := ⟨[]⟩

/-- Modelled from the spec: absorb raw bytes. -/
def HandshakeHash.update_raw (h : HandshakeHash) (bs : List Nat) : HandshakeHash :=
  ⟨h.buffer ++ bs⟩

/-- Modelled from the spec: feed the wire-encoded form of a message into
the accumulator. -/
def HandshakeHash.update (h : HandshakeHash) (m : Message) : HandshakeHash :=
  h.update_raw m.encode

/-- Modelled from the spec: snapshot the current accumulated hash
value. -/
def HandshakeHash.get_current_hash (h : HandshakeHash) : List Nat :=
  h.buffer

/-- Modelled from the spec: msgs::handshake::CertificatePayload is
outside src/; a certificate chain. -/
def CertificatePayload := List (List Nat)
deriving instance DecidableEq for CertificatePayload

structure ClientHandshakeData where
  client_hello : List Nat
  server_cert_chain : CertificatePayload
  ciphersuite : Option SupportedCipherSuite
  dns_name : String
  client_random : List Nat
  server_random : List Nat
  server_kx_params : List Nat
  server_kx_sig : Option DigitallySignedStruct
  handshake_hash : Option HandshakeHash
  secrets : SessionSecrets
deriving DecidableEq

def ClientHandshakeData.new (host_name : String) : ClientHandshakeData :=
  { client_hello := []
    server_cert_chain := []
    ciphersuite := none
    dns_name := host_name
    client_random := []
    server_random := []
    server_kx_params := []
    server_kx_sig := none
    handshake_hash := none
    secrets := SessionSecrets.for_client }

/-- Modelled from the spec: rand::fill_random_vec is outside src/; the
randomness source is an external collaborator, modelled as a fixed byte
sequence of the requested length. -/
def fill_random_vec (len : Nat) : List Nat := List.replicate len 0

def ClientHandshakeData.generate_client_random (hd : ClientHandshakeData) :
    ClientHandshakeData :=
  { hd with client_random := fill_random_vec 32 }

/-- ClientHandshakeData::hash_message. The source unwraps the optional
accumulator, so calling it with no accumulator panics; the panic is
modelled as `none`. -/
def ClientHandshakeData.hash_message (hd : ClientHandshakeData) (m : Message) :
    Option ClientHandshakeData :=
  match hd.handshake_hash with
  | none => none
  | some h => some { hd with handshake_hash := some (h.update m) }

/-- ClientHandshakeData::get_verify_data. The source unwraps the optional
accumulator, so calling it with no accumulator panics; the panic is
modelled as `none`. -/
def ClientHandshakeData.get_verify_data (hd : ClientHandshakeData) : Option Payload :=
  match hd.handshake_hash with
  | none => none
  | some h => some ⟨h.get_current_hash⟩

inductive ConnState where
  | ExpectServerHello
  | ExpectCertificate
  | ExpectServerKX
  | ExpectServerHelloDone
  | ExpectCCS
  | ExpectFinished
  | Traffic
deriving DecidableEq

/-- Modelled from the spec: the deframer's queue of complete inbound
messages (msgs::deframer::MessageDeframer is outside src/; only its
`frames` queue is consulted by the code under src/). -/
structure MessageDeframer where
  frames : List Message
deriving DecidableEq

def MessageDeframer.new : MessageDeframer := ⟨[]⟩

structure ClientSession where
  config : ClientConfig
  handshake_data : ClientHandshakeData
  secrets_current : SessionSecrets
  message_deframer : MessageDeframer
  tls_queue : List Message
  state : ConnState
deriving DecidableEq

/-- Modelled from the spec: the error taxonomy (handshake::HandshakeError
is outside src/): protocol violation (wrong content type / wrong
handshake type for the current state), decode failure (distinct per the
spec taxonomy), negotiation failure, and the sentinel unexpected-state
error. -/
inductive HandshakeError where
  | inappropriateMessage
  | inappropriateHandshakeMessage
  | decodeError
  | noCipherSuite
  | unexpectedState
deriving DecidableEq

/-- Protocol-violation errors: a received message does not match the
current state's expectation (wrong type or wrong phase). -/
def HandshakeError.isProtocolViolation : HandshakeError → Bool
  | .inappropriateMessage => true
  | .inappropriateHandshakeMessage => true
  | _ => false

/-- Decode-failure errors, the spec's distinct malformed-input class. -/
def HandshakeError.isDecodeFailure : HandshakeError → Bool
  | .decodeError => true
  | _ => false

/-- Modelled from the spec: a handler's expectation — the content types
and handshake message types it is willing to accept in its state
(client_hs is outside src/). -/
structure Expectation where
  content_types : List ContentType
  handshake_types : List HandshakeType

/-- Modelled from the spec: evaluate an expectation against a decoded
message; failure is a protocol-violation error. A handshake message
whose payload is still raw has no recognizable handshake type and is
rejected. -/
def Expectation.check_message (e : Expectation) (m : Message) :
    Except HandshakeError Unit :=
  if m.typ ∈ e.content_types then
    match m.typ, m.payload with
    | .handshake, .handshake p =>
        if p.typ ∈ e.handshake_types then .ok () else
          .error .inappropriateHandshakeMessage
    | .handshake, _ => .error .inappropriateHandshakeMessage
    | _, _ => .ok ()
  else .error .inappropriateMessage

/-- Modelled from the spec: a per-state handler (client_hs::Handler is
outside src/): an expectation and a handle function returning the
updated session and the next state. -/
structure Handler where
  expect : Expectation
  handle : ClientSession → Message → Except HandshakeError (ClientSession × ConnState)

def ClientSession.get_cipher_suites (s : ClientSession) : List CipherSuite :=
  let ret := s.config.ciphersuites.foldl (fun acc cs => acc ++ [cs.suite]) []
  ret ++ [CipherSuite.TLS_EMPTY_RENEGOTIATION_INFO_SCSV]

/-- Loop body of ClientSession::find_cipher_suite: first configured
entry whose identifier equals the argument. -/
def findCS : List SupportedCipherSuite → CipherSuite → Option SupportedCipherSuite
  | [], _ => none
  | scs :: rest, got => if scs.suite = got then some scs else findCS rest got

def ClientSession.find_cipher_suite (s : ClientSession) (suite : CipherSuite) :
    Option SupportedCipherSuite :=
  findCS s.config.ciphersuites suite

def ClientSession.add_extensions (_s : ClientSession) (exts : List ClientExtension) :
    List ClientExtension :=
  exts

def ClientSession.wants_read (_s : ClientSession) : Bool :=
  true

def ClientSession.wants_write (s : ClientSession) : Bool :=
  !s.tls_queue.isEmpty

/-- Modelled from the spec: the ServerHello handler (client_hs is
outside src/): negotiates the cipher suite against the configured list
(absence is a negotiation failure, never a silent default), records the
server random, and initializes the transcript hash accumulator —
feeding it the stored client-hello bytes and this message — then moves
to AwaitCertificate. -/
def client_hs.ExpectServerHello : Handler :=
  { expect := ⟨[.handshake], [.serverHello]⟩
    handle := fun s m =>
      match m.payload with
      | .handshake (.serverHello random suite) =>
          match s.find_cipher_suite suite with
          | none => .error .noCipherSuite
          | some scs =>
              let hh := (HandshakeHash.new.update_raw
                s.handshake_data.client_hello).update m
              let hd := { s.handshake_data with
                ciphersuite := some scs
                server_random := random
                handshake_hash := some hh }
              .ok ({ s with handshake_data := hd }, .ExpectCertificate)
      | _ => .error .inappropriateHandshakeMessage }

/-- Modelled from the spec: the Certificate handler (client_hs is
outside src/): hashes the message into the transcript, stores the server
certificate chain, and moves to AwaitServerKeyExchange. -/
def client_hs.ExpectCertificate : Handler :=
  { expect := ⟨[.handshake], [.certificate]⟩
    handle := fun s m =>
      match m.payload with
      | .handshake (.certificate chain) =>
          match s.handshake_data.hash_message m with
          | none => .error .unexpectedState
          | some hd =>
              .ok ({ s with
                handshake_data := { hd with server_cert_chain := chain } },
                .ExpectServerKX)
      | _ => .error .inappropriateHandshakeMessage }

/-- Modelled from the spec: the ServerKeyExchange handler (client_hs is
outside src/): hashes the message, stores the raw key-exchange
parameters, and moves to AwaitServerHelloDone. -/
def client_hs.ExpectServerKX : Handler :=
  { expect := ⟨[.handshake], [.serverKeyExchange]⟩
    handle := fun s m =>
      match m.payload with
      | .handshake (.serverKeyExchange params) =>
          match s.handshake_data.hash_message m with
          | none => .error .unexpectedState
          | some hd =>
              .ok ({ s with
                handshake_data := { hd with server_kx_params := params } },
                .ExpectServerHelloDone)
      | _ => .error .inappropriateHandshakeMessage }

/-- Modelled from the spec: the ServerHelloDone handler (client_hs is
outside src/): hashes the message and moves to AwaitChangeCipherSpec. -/
def client_hs.ExpectServerHelloDone : Handler :=
  { expect := ⟨[.handshake], [.serverHelloDone]⟩
    handle := fun s m =>
      match m.payload with
      | .handshake .serverHelloDone =>
          match s.handshake_data.hash_message m with
          | none => .error .unexpectedState
          | some hd =>
              .ok ({ s with handshake_data := hd }, .ExpectCCS)
      | _ => .error .inappropriateHandshakeMessage }

/-- Modelled from the spec: the sentinel handler for states with no
bound handler — its expectation constrains nothing and its handle
unconditionally fails with the unexpected-state error (client_hs is
outside src/). -/
def client_hs.InvalidState : Handler :=
  { expect := ⟨[.changeCipherSpec, .alert, .handshake, .applicationData],
      [.clientHello, .serverHello, .certificate, .serverKeyExchange,
        .serverHelloDone, .finished]⟩
    handle := fun _ _ => .error .unexpectedState }

/-- ClientSession::get_handler — the static dispatch table from the
source: four bound handlers, every other state falls to the sentinel. -/
def ClientSession.get_handler (s : ClientSession) : Handler :=
  match s.state with
  | .ExpectServerHello => client_hs.ExpectServerHello
  | .ExpectCertificate => client_hs.ExpectCertificate
  | .ExpectServerKX => client_hs.ExpectServerKX
  | .ExpectServerHelloDone => client_hs.ExpectServerHelloDone
  | _ => client_hs.InvalidState

/-- ClientSession::process_msg: decode the payload (result discarded, as
in the source), check the current handler's expectation, run the
handler, then commit the returned next state. -/
def ClientSession.process_msg (s : ClientSession) (msg : Message) :
    ClientSession × Except HandshakeError Unit :=
  let msg := msg.decode_payload
  let handler := s.get_handler
  let expects := handler.expect
  match expects.check_message msg with
  | .error e => (s, .error e)
  | .ok _ =>
      match handler.handle s msg with
      | .error e => (s, .error e)
      | .ok (s2, new_state) => ({ s2 with state := new_state }, .ok ())

/-- Loop of ClientSession::process_new_packets, recursing on the frame
queue: pop the front frame, process it, stop at the first failure. -/
def processFrames : List Message → ClientSession → ClientSession × Except HandshakeError Unit
  | [], s => (s, .ok ())
  | m :: rest, s =>
      let s1 := { s with message_deframer := ⟨rest⟩ }
      match s1.process_msg m with
      | (s2, .error e) => (s2, .error e)
      | (s2, .ok _) => processFrames rest s2

def ClientSession.process_new_packets (s : ClientSession) :
    ClientSession × Except HandshakeError Unit :=
  processFrames s.message_deframer.frames s

/-- Modelled from the spec: an I/O error from the caller's sink. -/
structure IOError where
  code : Nat
deriving DecidableEq

/-- ClientSession::write_tls: pop the front outbound message (before any
write is attempted, as in the source); an empty queue is a successful
no-op; otherwise encode the message and hand the bytes to the sink,
returning the sink's result verbatim. -/
def ClientSession.write_tls (s : ClientSession)
    (wr : List Nat → Except IOError Unit) :
    ClientSession × Except IOError Unit :=
  match s.tls_queue with
  | [] => (s, .ok ())
  | msg :: rest =>
      let data := msg.encode
      ({ s with tls_queue := rest }, wr data)

/-- Modelled from the spec: client_hs::emit_client_hello (outside src/):
generates the client random, builds the hello from the advertised
cipher-suite list and the extension hook, records the hello's wire bytes
in the transcript data, and enqueues the hello. -/
def client_hs.emit_client_hello (s : ClientSession) : ClientSession :=
  let hd := s.handshake_data.generate_client_random
  let hello : Message :=
    { typ := .handshake
      payload := .handshake (.clientHello hd.client_random
        s.get_cipher_suites (s.add_extensions [])) }
  { s with
    handshake_data := { hd with client_hello := hello.encode }
    tls_queue := s.tls_queue ++ [hello] }

def ClientSession.new (client_config : ClientConfig) (hostname : String) :
    ClientSession :=
  let cs : ClientSession :=
    { config := client_config
      handshake_data := ClientHandshakeData.new hostname
      secrets_current := SessionSecrets.for_client
      message_deframer := MessageDeframer.new
      tls_queue := []
      state := .ExpectServerHello }
  client_hs.emit_client_hello cs

/-- Drive a list of messages through process_msg in order, stopping at
the first failure — the spec's well-formed-sequence scenario driver. -/
def runStates : ClientSession → List Message → ClientSession × Except HandshakeError Unit
  | s, [] => (s, .ok ())
  | s, m :: rest =>
      match s.process_msg m with
      | (s2, .ok _) => runStates s2 rest
      | (s2, .error e) => (s2, .error e)

/-- The sequence of states the machine occupies while driving a message
list: the state before each successful step, ending at the state where
the run stops (queue drained or first failure). -/
def stateTrace : ClientSession → List Message → List ConnState
  | s, [] => [s.state]
  | s, m :: rest =>
      match s.process_msg m with
      | (s2, .ok _) => s.state :: stateTrace s2 rest
      | (_, .error _) => [s.state]

def testConfig : ClientConfig :=
  { ciphersuites := [⟨⟨0x2F⟩, 0, 0, 0⟩, ⟨⟨0x35⟩, 0, 0, 2⟩]
    root_store := RootCertStore.empty }

def testHost : String := "example.test"

def serverHelloMsg : Message := ⟨.handshake, .raw (2 :: (List.replicate 32 1 ++ [0x2F]))⟩

def certificateMsg : Message := ⟨.handshake, .raw [11, 9, 9, 9]⟩

def serverKXMsg : Message := ⟨.handshake, .raw [12, 7, 7]⟩

def serverHelloDoneMsg : Message := ⟨.handshake, .raw [14]⟩

def ccsMsg : Message := ⟨.changeCipherSpec, .raw [1]⟩

def finishedMsg : Message := ⟨.handshake, .raw [20, 3, 3]⟩

def wellFormedServerSequence : List Message :=
  [serverHelloMsg, certificateMsg, serverKXMsg, serverHelloDoneMsg, ccsMsg, finishedMsg]

def failingSink : List Nat → Except IOError Unit := fun _ => .error ⟨5⟩

def okSink : List Nat → Except IOError Unit := fun _ => .ok ()

def testHashHD : ClientHandshakeData :=
  { ClientHandshakeData.new testHost with handshake_hash := some ⟨[1, 2]⟩ }

theorem findCS_some_spec (l : List SupportedCipherSuite) (got : CipherSuite)
    (scs : SupportedCipherSuite) (h : findCS l got = some scs) :
    scs.suite = got ∧ ∃ p q, l = p ++ scs :: q ∧ ∀ x ∈ p, x.suite ≠ got := by
  induction l with
  | nil => exact absurd h (by simp [findCS])
  | cons a rest ih =>
      unfold findCS at h
      by_cases hc : a.suite = got
      · rw [if_pos hc] at h
        have ha : a = scs := by injection h
        subst ha
        exact ⟨hc, [], rest, rfl, by simp⟩
      · rw [if_neg hc] at h
        obtain ⟨hs, p, q, hl, hp⟩ := ih h
        refine ⟨hs, a :: p, q, by rw [hl]; rfl, ?_⟩
        intro x hx
        rcases List.mem_cons.mp hx with hx | hx
        · subst hx; exact hc
        · exact hp x hx

theorem findCS_none_iff (l : List SupportedCipherSuite) (got : CipherSuite) :
    findCS l got = none ↔ ∀ scs ∈ l, scs.suite ≠ got := by
  induction l with
  | nil => simp [findCS]
  | cons a rest ih =>
      unfold findCS
      by_cases hc : a.suite = got
      · rw [if_pos hc]
        exact ⟨fun h => absurd h (by simp),
          fun h => absurd hc (h a (by simp))⟩
      · rw [if_neg hc, ih]
        constructor
        · intro h scs hm
          rcases List.mem_cons.mp hm with hm | hm
          · subst hm; exact hc
          · exact h scs hm
        · intro h scs hm
          exact h scs (List.mem_cons_of_mem a hm)

/-- C5: find_cipher_suite returns some s only when s is a configured
entry whose identifier equals the argument — the first such entry in
preference order — and returns none exactly when no configured entry
matches; it never returns a suite absent from the configured list. -/
theorem find_cipher_suite_sound (s : ClientSession) (suite : CipherSuite) :
    (∀ scs, s.find_cipher_suite suite = some scs →
      scs ∈ s.config.ciphersuites ∧ scs.suite = suite ∧
      ∃ p q, s.config.ciphersuites = p ++ scs :: q ∧ ∀ x ∈ p, x.suite ≠ suite) ∧
    (s.find_cipher_suite suite = none ↔
      ∀ scs ∈ s.config.ciphersuites, scs.suite ≠ suite) := by
  constructor
  · intro scs h
    obtain ⟨hs, p, q, hl, hp⟩ := findCS_some_spec s.config.ciphersuites suite scs h
    refine ⟨?_, hs, p, q, hl, hp⟩
    rw [hl]
    exact List.mem_append_right p (List.mem_cons_self scs q)
  · exact findCS_none_iff s.config.ciphersuites suite

/-- C5 witness: in the two-suite test configuration, looking up 0x35
returns the configured second entry with its decomposition, and looking
up the unconfigured 0x99 matches no entry. -/
theorem find_cipher_suite_sound_app :
    ((ClientSession.new testConfig testHost).find_cipher_suite ⟨0x35⟩ =
      some ⟨⟨0x35⟩, 0, 0, 2⟩) ∧
    ((⟨⟨0x35⟩, 0, 0, 2⟩ : SupportedCipherSuite) ∈
        (ClientSession.new testConfig testHost).config.ciphersuites ∧
      (⟨⟨0x35⟩, 0, 0, 2⟩ : SupportedCipherSuite).suite = ⟨0x35⟩ ∧
      ∃ p q, (ClientSession.new testConfig testHost).config.ciphersuites =
          p ++ (⟨⟨0x35⟩, 0, 0, 2⟩ : SupportedCipherSuite) :: q ∧
        ∀ x ∈ p, x.suite ≠ ⟨0x35⟩) ∧
    (∀ scs ∈ (ClientSession.new testConfig testHost).config.ciphersuites,
      scs.suite ≠ ⟨0x99⟩) := by
  refine ⟨rfl, ?_, ?_⟩
  · exact (find_cipher_suite_sound (ClientSession.new testConfig testHost)
      ⟨0x35⟩).1 ⟨⟨0x35⟩, 0, 0, 2⟩ rfl
  · exact (find_cipher_suite_sound (ClientSession.new testConfig testHost)
      ⟨0x99⟩).2.mp rfl

theorem foldl_push_suite (l : List SupportedCipherSuite) (acc : List CipherSuite) :
    l.foldl (fun a cs => a ++ [cs.suite]) acc = acc ++ l.map (fun cs => cs.suite) := by
  induction l generalizing acc with
  | nil => simp
  | cons x xs ih => simp [List.foldl, ih]

/-- C6: the advertised cipher-suite list is the configured suites'
identifiers in preference order with the no-renegotiation sentinel
appended: one element longer, prefix equal to the configured
identifiers, last element the sentinel. -/
theorem get_cipher_suites_spec (s : ClientSession) :
    s.get_cipher_suites.length = s.config.ciphersuites.length + 1 ∧
    s.get_cipher_suites.take s.config.ciphersuites.length =
      s.config.ciphersuites.map (fun cs => cs.suite) ∧
    s.get_cipher_suites.getLast? =
      some CipherSuite.TLS_EMPTY_RENEGOTIATION_INFO_SCSV := by
  have h : s.get_cipher_suites =
      s.config.ciphersuites.map (fun cs => cs.suite) ++
        [CipherSuite.TLS_EMPTY_RENEGOTIATION_INFO_SCSV] := by
    unfold ClientSession.get_cipher_suites
    rw [foldl_push_suite]
    simp
  refine ⟨?_, ?_, ?_⟩
  · rw [h]; simp
  · rw [h]
    simp
  · rw [h]
    exact List.getLast?_concat _

/-- C7: the transcript accessors unwrap the optional hash accumulator:
with no accumulator both fail loudly (modelled as none, the panic),
never defaulting; with an accumulator present the failure branch is
unreachable — hash_message feeds the message into the accumulator and
get_verify_data snapshots the current hash. -/
theorem transcript_accessors_require_accumulator (hd : ClientHandshakeData)
    (m : Message) :
    (hd.handshake_hash = none →
      hd.hash_message m = none ∧ hd.get_verify_data = none) ∧
    (∀ h, hd.handshake_hash = some h →
      hd.hash_message m = some { hd with handshake_hash := some (h.update m) } ∧
      hd.get_verify_data = some ⟨h.get_current_hash⟩) := by
  constructor
  · intro h
    constructor
    · simp [ClientHandshakeData.hash_message, h]
    · simp [ClientHandshakeData.get_verify_data, h]
  · intro hh h
    constructor
    · simp [ClientHandshakeData.hash_message, h]
    · simp [ClientHandshakeData.get_verify_data, h]

/-- C7 witness: on fresh handshake data the accumulator is absent and
both accessors fail; on data with an accumulator both succeed. -/
theorem transcript_accessors_require_accumulator_app :
    ((ClientHandshakeData.new testHost).hash_message serverHelloDoneMsg = none ∧
      (ClientHandshakeData.new testHost).get_verify_data = none) ∧
    (testHashHD.hash_message serverHelloDoneMsg =
        some { testHashHD with
               handshake_hash := some ((⟨[1, 2]⟩ : HandshakeHash).update serverHelloDoneMsg) } ∧
      testHashHD.get_verify_data =
        some ⟨(⟨[1, 2]⟩ : HandshakeHash).get_current_hash⟩) := by
  constructor
  · exact (transcript_accessors_require_accumulator
      (ClientHandshakeData.new testHost) serverHelloDoneMsg).1 rfl
  · exact (transcript_accessors_require_accumulator
      testHashHD serverHelloDoneMsg).2 ⟨[1, 2]⟩ rfl

/-- C8: wants_write is true exactly when the outbound queue is
non-empty; it is true immediately after construction (the hello is
queued) and false after a successful write_tls call that empties the
queue. -/
theorem wants_write_spec (s : ClientSession) (cfg : ClientConfig) (host : String)
    (wr : List Nat → Except IOError Unit) :
    (s.wants_write = true ↔ s.tls_queue ≠ []) ∧
    (ClientSession.new cfg host).wants_write = true ∧
    (∀ s2, s.write_tls wr = (s2, .ok ()) → s2.tls_queue = [] →
      s2.wants_write = false) := by
  refine ⟨?_, ?_, ?_⟩
  · simp [ClientSession.wants_write]
  · simp [ClientSession.new, client_hs.emit_client_hello, ClientSession.wants_write]
  · intro s2 _ hq
    simp [ClientSession.wants_write, hq]

/-- C8 witness: a fresh session wants to write, and after the successful
write that drains its one-message queue it no longer does. -/
theorem wants_write_spec_app :
    (ClientSession.new testConfig testHost).wants_write = true ∧
    ({ ClientSession.new testConfig testHost with tls_queue := [] } :
      ClientSession).wants_write = false := by
  constructor
  · exact (wants_write_spec (ClientSession.new testConfig testHost)
      testConfig testHost okSink).2.1
  · exact (wants_write_spec (ClientSession.new testConfig testHost)
      testConfig testHost okSink).2.2
      { ClientSession.new testConfig testHost with tls_queue := [] } rfl rfl

/-- C10: the extension hook appends nothing — it returns the extension
list unchanged and touches nothing else, so the queued client hello
carries an empty extension list. -/
theorem add_extensions_noop (s : ClientSession) (exts : List ClientExtension) :
    s.add_extensions exts = exts ∧
    (∀ cfg host, ∃ random suites,
      (ClientSession.new cfg host).tls_queue =
        [⟨.handshake, .handshake (.clientHello random suites [])⟩]) := by
  constructor
  · rfl
  · intro cfg host
    exact ⟨_, _, rfl⟩

def testHello : Message :=
  ⟨.handshake, .handshake (.clientHello (List.replicate 32 0)
    [⟨0x2F⟩, ⟨0x35⟩, ⟨0xFF⟩] [])⟩

theorem check_message_err_is_violation (ex : Expectation) (m : Message)
    (e : HandshakeError) (h : ex.check_message m = .error e) :
    e.isProtocolViolation = true := by
  unfold Expectation.check_message at h
  split at h
  · split at h
    · split at h
      · exact absurd h (by simp)
      · cases h; rfl
    · cases h; rfl
    · exact absurd h (by simp)
  · cases h; rfl

/-- C1: a message rejected by the current state's expectation makes
process_msg return a protocol-violation error with the session — state,
transcript and secrets — exactly as it was: the handler never runs and
no mutation is committed. -/
theorem process_msg_reject_no_mutation (s : ClientSession) (m : Message)
    (e : HandshakeError)
    (h : (s.get_handler).expect.check_message m.decode_payload = .error e) :
    s.process_msg m = (s, .error e) ∧ e.isProtocolViolation = true := by
  constructor
  · simp only [ClientSession.process_msg, h]
  · exact check_message_err_is_violation _ _ _ h

/-- C1 witness: the spec's concrete scenario — a ServerKeyExchange
message at AwaitServerHello is rejected as a protocol violation and the
fresh session is returned untouched. -/
theorem process_msg_reject_no_mutation_app :
    ((ClientSession.new testConfig testHost).get_handler.expect.check_message
        serverKXMsg.decode_payload = .error .inappropriateHandshakeMessage) ∧
    ((ClientSession.new testConfig testHost).process_msg serverKXMsg =
        (ClientSession.new testConfig testHost,
          .error .inappropriateHandshakeMessage) ∧
      HandshakeError.isProtocolViolation .inappropriateHandshakeMessage = true) := by
  refine ⟨rfl, ?_⟩
  exact process_msg_reject_no_mutation (ClientSession.new testConfig testHost)
    serverKXMsg .inappropriateHandshakeMessage rfl

/-- C3 counterexample: a fresh session has its hello queued; calling
write_tls with a sink whose write fails returns the I/O error, yet the
queue has already lost the hello — a message is lost from the queue on a
failed write, contrary to the claim. -/
theorem write_tls_loses_message_cex :
    (ClientSession.new testConfig testHost).tls_queue ≠ [] ∧
    ((ClientSession.new testConfig testHost).write_tls failingSink).2 =
      .error ⟨5⟩ ∧
    ((ClientSession.new testConfig testHost).write_tls failingSink).1.tls_queue =
      [] :=
  ⟨by decide, rfl, rfl⟩

/-- C3 amended: write_tls pops at most one queued message per call and
an empty queue is a successful no-op, but the message is removed from
the queue before the write is attempted, so when the sink's write fails
the message has already left the queue and is lost. -/
theorem write_tls_pops_before_write (s : ClientSession)
    (wr : List Nat → Except IOError Unit) :
    (s.tls_queue = [] → s.write_tls wr = (s, .ok ())) ∧
    (∀ m rest, s.tls_queue = m :: rest →
      (s.write_tls wr).1 = { s with tls_queue := rest } ∧
      (s.write_tls wr).2 = wr m.encode) := by
  constructor
  · intro h
    simp only [ClientSession.write_tls, h]
  · intro m rest h
    constructor <;> simp only [ClientSession.write_tls, h]

/-- C3 amended witness: on the fresh session the queued hello is popped
and handed to the failing sink, and on the drained session write_tls is
a successful no-op. -/
theorem write_tls_pops_before_write_app :
    (((ClientSession.new testConfig testHost).write_tls failingSink).1 =
        { ClientSession.new testConfig testHost with tls_queue := [] } ∧
      ((ClientSession.new testConfig testHost).write_tls failingSink).2 =
        failingSink testHello.encode) ∧
    ({ ClientSession.new testConfig testHost with tls_queue := [] } :
        ClientSession).write_tls failingSink =
      ({ ClientSession.new testConfig testHost with tls_queue := [] }, .ok ()) := by
  constructor
  · exact (write_tls_pops_before_write (ClientSession.new testConfig testHost)
      failingSink).2 testHello [] rfl
  · exact (write_tls_pops_before_write
      { ClientSession.new testConfig testHost with tls_queue := [] }
      failingSink).1 rfl

/-- C4 counterexample: the bytes [2, 0] fail to parse, yet process_msg
does not surface a decode-failure error: the decode result is discarded
and the undecoded message is rejected by the expectation check as a
protocol violation (inappropriateHandshakeMessage), which is not the
decode-failure class. -/
theorem process_msg_undecodable_cex :
    parseHandshake [2, 0] = none ∧
    (ClientSession.new testConfig testHost).process_msg ⟨.handshake, .raw [2, 0]⟩ =
      (ClientSession.new testConfig testHost,
        .error .inappropriateHandshakeMessage) ∧
    HandshakeError.isDecodeFailure .inappropriateHandshakeMessage = false :=
  ⟨rfl, rfl, rfl⟩

/-- C4 amended: process_msg discards decode_payload's result; a
handshake message whose bytes cannot be parsed is rejected in every
state by the expectation check with a protocol-violation error — never
the distinct decode-failure error — with no handler run and no state
transition committed. -/
theorem process_msg_undecodable_protocol_violation (s : ClientSession)
    (bs : List Nat) (h : parseHandshake bs = none) :
    ∃ e, s.process_msg ⟨.handshake, .raw bs⟩ = (s, .error e) ∧
      e.isProtocolViolation = true ∧ e.isDecodeFailure = false := by
  have hd : (⟨.handshake, .raw bs⟩ : Message).decode_payload =
      ⟨.handshake, .raw bs⟩ := by
    simp [Message.decode_payload, h]
  obtain ⟨cfg, hdata, sec, df, q, st⟩ := s
  cases st
  all_goals
    refine ⟨.inappropriateHandshakeMessage, ?_, rfl, rfl⟩
  all_goals
    simp only [ClientSession.process_msg, hd]
  all_goals rfl

/-- C2 counterexample: driving the well-formed six-message server
sequence from a fresh session does not make every call succeed and does
not end in Traffic — the run stops with an error before Traffic. -/
theorem handshake_sequence_stalls_cex :
    (runStates (ClientSession.new testConfig testHost) wellFormedServerSequence).2 ≠
      .ok () ∧
    (runStates (ClientSession.new testConfig testHost) wellFormedServerSequence).1.state ≠
      ConnState.Traffic := by
  have h1 : (runStates (ClientSession.new testConfig testHost)
      wellFormedServerSequence).2 = .error .unexpectedState := rfl
  have h2 : (runStates (ClientSession.new testConfig testHost)
      wellFormedServerSequence).1.state = ConnState.ExpectCCS := rfl
  constructor
  · rw [h1]
    exact fun hc => Except.noConfusion hc
  · rw [h2]
    exact fun hc => ConnState.noConfusion hc

/-- C2 amended: the well-formed sequence drives the machine through
AwaitServerHello, AwaitCertificate, AwaitServerKeyExchange and
AwaitServerHelloDone exactly once each, in that order, reaching
AwaitChangeCipherSpec; there the dispatch table binds no handler (the
source maps that state to the sentinel), so the ChangeCipherSpec message
fails with the unexpected-state error and the run stops in
AwaitChangeCipherSpec, never reaching Traffic. -/
theorem handshake_sequence_amended :
    stateTrace (ClientSession.new testConfig testHost) wellFormedServerSequence =
      [.ExpectServerHello, .ExpectCertificate, .ExpectServerKX,
        .ExpectServerHelloDone, .ExpectCCS] ∧
    (runStates (ClientSession.new testConfig testHost) wellFormedServerSequence).2 =
      .error .unexpectedState ∧
    (runStates (ClientSession.new testConfig testHost) wellFormedServerSequence).1.state =
      ConnState.ExpectCCS :=
  ⟨rfl, rfl, rfl⟩

theorem handle_preserves_deframer (s : ClientSession) (m : Message)
    (s2 : ClientSession) (ns : ConnState)
    (h : (s.get_handler).handle s m = .ok (s2, ns)) :
    s2.message_deframer = s.message_deframer := by
  obtain ⟨cfg, hdata, sec, df, q, st⟩ := s
  cases st <;>
    simp only [ClientSession.get_handler, client_hs.ExpectServerHello,
      client_hs.ExpectCertificate, client_hs.ExpectServerKX,
      client_hs.ExpectServerHelloDone, client_hs.InvalidState] at h <;>
    (repeat' split at h) <;>
    first
    | exact Except.noConfusion h
    | (injection h with h2
       injection h2 with h3 h4
       subst h3
       rfl)

theorem process_msg_preserves_deframer (s : ClientSession) (m : Message) :
    (s.process_msg m).1.message_deframer = s.message_deframer := by
  simp only [ClientSession.process_msg]
  split
  · rfl
  · split
    · rfl
    · rename_i s2 ns heq
      exact handle_preserves_deframer s m.decode_payload s2 ns heq

theorem processFrames_drained (l : List Message) :
    ∀ s : ClientSession, s.message_deframer.frames = l →
      (processFrames l s).2 = .ok () →
      (processFrames l s).1.message_deframer.frames = [] := by
  induction l with
  | nil => exact fun s hs _ => hs
  | cons m rest ih =>
      intro s hs hok
      simp only [processFrames] at hok ⊢
      cases hp : ClientSession.process_msg { s with message_deframer := ⟨rest⟩ } m with
      | mk s2 r =>
        have hpres := process_msg_preserves_deframer
          { s with message_deframer := ⟨rest⟩ } m
        rw [hp] at hpres
        have h2 : s2.message_deframer = ⟨rest⟩ := hpres
        cases r with
        | error e =>
            simp only [hp] at hok
            exact absurd hok (by simp)
        | ok u =>
            simp only [hp] at hok ⊢
            exact ih s2 (by rw [h2]) hok

/-- C9: process_new_packets dequeues inbound messages one at a time in
FIFO order, feeding each to process_msg: an empty queue is an immediate
success; the front message is popped and, on failure, the error is
propagated with all later messages still queued; on success processing
continues with the rest; and a successful return means the inbound queue
was drained. -/
theorem process_new_packets_spec (s : ClientSession) :
    (s.message_deframer.frames = [] → s.process_new_packets = (s, .ok ())) ∧
    (∀ m rest s2 e, s.message_deframer.frames = m :: rest →
      ClientSession.process_msg { s with message_deframer := ⟨rest⟩ } m =
        (s2, .error e) →
      s.process_new_packets = (s2, .error e) ∧
        s2.message_deframer.frames = rest) ∧
    (∀ m rest s2, s.message_deframer.frames = m :: rest →
      ClientSession.process_msg { s with message_deframer := ⟨rest⟩ } m =
        (s2, .ok ()) →
      s.process_new_packets = s2.process_new_packets) ∧
    ((s.process_new_packets).2 = .ok () →
      (s.process_new_packets).1.message_deframer.frames = []) := by
  refine ⟨?_, ?_, ?_, ?_⟩
  · intro h
    unfold ClientSession.process_new_packets
    rw [h]
    rfl
  · intro m rest s2 e hf hp
    have hpres := process_msg_preserves_deframer
      { s with message_deframer := ⟨rest⟩ } m
    rw [hp] at hpres
    have h2 : s2.message_deframer = ⟨rest⟩ := hpres
    constructor
    · show processFrames s.message_deframer.frames s = (s2, Except.error e)
      rw [hf]
      simp only [processFrames]
      rw [hp]
    · rw [h2]
  · intro m rest s2 hf hp
    have hpres := process_msg_preserves_deframer
      { s with message_deframer := ⟨rest⟩ } m
    rw [hp] at hpres
    have h2 : s2.message_deframer = ⟨rest⟩ := hpres
    show processFrames s.message_deframer.frames s =
      processFrames s2.message_deframer.frames s2
    have h3 : s2.message_deframer.frames = rest := by rw [h2]
    rw [hf, h3]
    simp only [processFrames]
    rw [hp]
  · exact fun hok => processFrames_drained s.message_deframer.frames s rfl hok

/-- C9 witness: a fresh session's inbound queue is empty, so pumping it
succeeds immediately and changes nothing. -/
theorem process_new_packets_spec_app :
    (ClientSession.new testConfig testHost).process_new_packets =
      (ClientSession.new testConfig testHost, .ok ()) :=
  (process_new_packets_spec (ClientSession.new testConfig testHost)).1 rfl

/-- C4 amended witness: the unparseable bytes [2, 0] at a fresh session
are rejected with a protocol-violation — not decode-failure — error and
the session is returned untouched. -/
theorem process_msg_undecodable_protocol_violation_app :
    ∃ e, (ClientSession.new testConfig testHost).process_msg
        ⟨.handshake, .raw [2, 0]⟩ =
        (ClientSession.new testConfig testHost, .error e) ∧
      e.isProtocolViolation = true ∧ e.isDecodeFailure = false :=
  process_msg_undecodable_protocol_violation
    (ClientSession.new testConfig testHost) [2, 0] rfl
